import Mathlib

/-
  Verification development for the MML_BOT repository (src/main.py).

  The workflow logic of the bot is shallowly embedded below. Database rows
  become structures with `Option` fields standing for SQL NULL; the SQLite
  tables become lists of rows; handlers become pure functions that return
  the updated rows together with the outbound side effects (replies to the
  user, messages to the admin, appended interaction-log entries).

  Python truthiness of strings and integers is modelled explicitly
  (`truthyS`, `pyOrOne`, `pyOrStr`). Timestamps are modelled as integer
  seconds where arithmetic matters and as opaque strings elsewhere.
-/

namespace MMLBot

/-- Python truthiness of an optional string: `None` and `""` are falsy. -/
def truthyS : Option String → Bool
  | none => false
  | some s => s != ""

/-- Python `x or 1` for an optional integer column: `None` and `0` give 1. -/
def pyOrOne : Option Nat → Nat
  | none => 1
  | some 0 => 1
  | some (n + 1) => n + 1

/-- Python `x or d` for an optional string: `None` and `""` give the default. -/
def pyOrStr (o : Option String) (d : String) : String :=
  match o with
  | none => d
  | some s => if s == "" then d else s

/-- SQL `COALESCE(old, new)`: keep the old value when it is non-NULL. -/
def coalesce (old new : Option String) : Option String :=
  match old with
  | some v => some v
  | none => new

/-- Python `s.isdigit()` restricted to ASCII digits (all inputs the bot
validates are ASCII). Empty strings are not digit strings. -/
def pyIsdigit (s : String) : Bool :=
  s != "" && s.toList.all Char.isDigit

/-- Drop leading characters satisfying the predicate. -/
def dropWhileChars (p : Char → Bool) : List Char → List Char
  | [] => []
  | c :: rest => if p c then dropWhileChars p rest else c :: rest

/-- Python `s.strip()` for ASCII whitespace, written structurally so that it
evaluates inside the kernel. -/
def pyStrip (s : String) : String :=
  String.mk (List.reverse (dropWhileChars Char.isWhitespace
    (List.reverse (dropWhileChars Char.isWhitespace s.toList))))

/-- An inbound Telegram message as the handlers inspect it: a text message
(`update.message.text`), a photo message (`update.message.photo[-1].file_id`),
or any other payload kind. -/
inductive Msg where
  | text (s : String)
  | photo (fid : String)
  | other
deriving DecidableEq, Repr

/-- A row of the `users` table (timestamp columns elided; they carry no
workflow meaning). `Option` fields model SQL NULL; the defaults are the
column defaults of the CREATE TABLE statement in `init_db`. -/
structure UserRow where
  telegram_id : Nat
  name : Option String := none
  id_number : Option String := none
  id_card_file_id : Option String := none
  selfie_with_id_file_id : Option String := none
  email : Option String := none
  status : String := "pending"
  attempts : Option Nat := some 1
  entry_count : Option Nat := some 0
  username : Option String := none
  bio : Option String := none
  profile_photo_file_id : Option String := none
  pending_field : Option String := none
deriving DecidableEq, Repr

/-- A row appended to the `user_messages` interaction log by
`log_user_message` (binary payload and chat type elided). -/
structure LogEntry where
  user_id : Nat
  msg_type : String
  content : String := ""
  file_id : String := ""
deriving DecidableEq, Repr

/-- An outbound message to the admin chat. -/
inductive AdminSend where
  | text (content : String)
  | photo (fid : String) (caption : String)
deriving DecidableEq, Repr

/-- The transient `context.user_data` working state of the KYC intake. -/
structure UserData where
  name : Option String := none
  id_number : Option String := none
  id_card_file_id : Option String := none
  selfie_with_id_file_id : Option String := none
  email : Option String := none
deriving DecidableEq, Repr

/-- `SELECT * FROM users WHERE telegram_id = ?` (`get_user`). -/
def get_user (users : List UserRow) (tid : Nat) : Option UserRow :=
  users.find? (fun u => u.telegram_id == tid)

/-- Replace the row with the given key, or append a fresh row: the effect of
an `INSERT ... ON CONFLICT(telegram_id) DO UPDATE` once the new row value is
known. -/
def upsertUser (users : List UserRow) (row : UserRow) : List UserRow :=
  if users.any (fun u => u.telegram_id == row.telegram_id) then
    users.map (fun u => if u.telegram_id == row.telegram_id then row else u)
  else users ++ [row]

/-- `UPDATE users SET ... WHERE telegram_id = ?`, as a row transformer
applied to the matching row. -/
def updateUserRows (users : List UserRow) (tid : Nat) (f : UserRow → UserRow) : List UserRow :=
  users.map (fun u => if u.telegram_id == tid then f u else u)

/-- Row effect of `set_user_status`. -/
def set_user_status (u : UserRow) (status : String) : UserRow :=
  { u with status := status }

/-- Row effect of `set_pending_field`. -/
def set_pending_field (u : UserRow) (field : Option String) : UserRow :=
  { u with pending_field := field }

/-- Row effect of `update_user_field` for the five column names the source
actually passes (the SQL interpolates the column name). -/
def update_user_field (u : UserRow) (field : String) (value : String) : UserRow :=
  if field == "name" then { u with name := some value }
  else if field == "id_number" then { u with id_number := some value }
  else if field == "id_card_file_id" then { u with id_card_file_id := some value }
  else if field == "selfie_with_id_file_id" then { u with selfie_with_id_file_id := some value }
  else if field == "email" then { u with email := some value }
  else u

/-- `increment_entry_count`: upsert that inserts a fresh row with
`entry_count = 1` (all other columns at their defaults) or bumps
`COALESCE(entry_count, 0) + 1` on conflict. -/
def increment_entry_count (users : List UserRow) (tid : Nat) : List UserRow :=
  match get_user users tid with
  | some _ =>
      updateUserRows users tid (fun u => { u with entry_count := some (u.entry_count.getD 0 + 1) })
  | none => users ++ [{ telegram_id := tid, entry_count := some 1 }]

/-- `upsert_profile_meta`: refresh the cached profile columns. -/
def upsert_profile_meta (users : List UserRow) (tid : Nat)
    (username bio profile_photo_file_id : String) : List UserRow :=
  match get_user users tid with
  | some _ =>
      updateUserRows users tid (fun u =>
        { u with username := some username, bio := some bio,
                 profile_photo_file_id := some profile_photo_file_id })
  | none =>
      users ++ [{ telegram_id := tid, username := some username, bio := some bio,
                  profile_photo_file_id := some profile_photo_file_id }]

/-- The row written by `insert_user`: the full-intake upsert. Attempts are
kept when the prior persisted status was `needs_update`, incremented from the
prior value otherwise, and 1 for a fresh insert; `entry_count` and
`pending_field` are carried over from the existing row. Status is forced to
`pending`. -/
def insert_user_row (existing : Option UserRow) (tid : Nat)
    (name id_number id_card_file_id selfie_with_id_file_id email username bio
     profile_photo_file_id : String) : UserRow :=
  let attempts : Nat :=
    match existing with
    | some ex => if ex.status == "needs_update" then pyOrOne ex.attempts
                 else pyOrOne ex.attempts + 1
    | none => 1
  { telegram_id := tid,
    name := some name,
    id_number := some id_number,
    id_card_file_id := some id_card_file_id,
    selfie_with_id_file_id := some selfie_with_id_file_id,
    email := some email,
    status := "pending",
    attempts := some attempts,
    entry_count := match existing with | some ex => ex.entry_count | none => some 0,
    username := some username,
    bio := some bio,
    profile_photo_file_id := some profile_photo_file_id,
    pending_field := match existing with | some ex => ex.pending_field | none => none }

/-- `insert_user` applied to the users table. -/
def insert_user (users : List UserRow) (tid : Nat)
    (name id_number id_card_file_id selfie_with_id_file_id email username bio
     profile_photo_file_id : String) : List UserRow :=
  upsertUser users
    (insert_user_row (get_user users tid) tid name id_number id_card_file_id
      selfie_with_id_file_id email username bio profile_photo_file_id)

/-- `is_english_name`: ASCII letters plus space, hyphen and apostrophe
(character code 39), with at least one letter. -/
def is_english_name (text : String) : Bool :=
  text.toList.all (fun c => c.isAlpha || c == ' ' || c == '-' || c.toNat == 39)
    && text.toList.any (fun c => c.isAlpha)

/-- `build_user_info_text`. -/
def build_user_info_text (row : Option UserRow) (username : String)
    (pre : String) : String :=
  match row with
  | none => pre ++ "\n(No user data found)"
  | some r =>
      pre ++ "\nName: " ++ pyOrStr r.name "N/A"
        ++ "\nID number: " ++ pyOrStr r.id_number "N/A"
        ++ "\nEmail: " ++ pyOrStr r.email "N/A"
        ++ "\nUsername: " ++ (if username == "" then "No username" else username)
        ++ "\nuser_id: " ++ toString r.telegram_id

/-- `send_full_info_to_admin`: one text message with the user info, then the
id-card photo and the selfie photo when those references are truthy, each
captioned with the same info text. -/
def send_full_info_to_admin (users : List UserRow) (uid : Nat)
    (id_card_file_id selfie_file_id : Option String)
    (pre : String) : List AdminSend :=
  let row := get_user users uid
  let username :=
    match row with
    | some r => pyOrStr r.username "No username"
    | none => "No username"
  let info := build_user_info_text row username pre
  [AdminSend.text info]
    ++ (if truthyS id_card_file_id then [AdminSend.photo (id_card_file_id.getD "") info] else [])
    ++ (if truthyS selfie_file_id then [AdminSend.photo (selfie_file_id.getD "") info] else [])

/-- The `ConversationHandler` states of the bot (`range(8)` plus
`ConversationHandler.END`, written `DONE` here). -/
inductive ConvState where
  | SELECT
  | NAME
  | ID_CARD_PHOTO
  | ID_NUMBER
  | SELFIE_WITH_ID
  | EMAIL
  | EX_HASH
  | EX_SCREEN
  | DONE
deriving DecidableEq, Repr

/-- Result of one KYC collector invocation: the conversation state it
returns, the transient working data, the users table, and the side effects
(appended interaction-log entries for the inbound event, replies to the
user, messages to the admin, and the list of full `insert_user` upserts
performed). Each reply is additionally mirrored into the log as a
bot-originated entry by the `reply_text_logged` transport wrapper; that
mirroring is uniform and kept out of `eventLog`, which records exactly the
`log_user_message` calls the handler itself makes for the inbound event.
`marked` records whether the handler called `mark_logged` on the inbound
message id: the collectors do so exactly on the full-intake paths that log
the event themselves. The catch-all `log_any_message`, registered in group 1
and therefore run for the same update after the conversation handler,
appends a generic interaction-log entry for the event whenever `marked` is
false (see `kycUpdateLog`). -/
structure StepOut where
  conv : ConvState
  ud : UserData
  users : List UserRow
  eventLog : List LogEntry
  replies : List String
  adminSends : List AdminSend
  fullUpserts : List UserRow
  marked : Bool
deriving DecidableEq, Repr

/-- The single-field repair branch shared by all five collectors when the
persisted status is `needs_update`. The source performs the three committed
writes (the one field, `pending_field` cleared, status back to `pending`)
and then crashes with AttributeError while building the
`send_full_info_to_admin` arguments: it calls `existing.get(...)` on a
sqlite3 row object, which has no `get` method. So no admin notification and
no confirmation reply is ever sent, the event is not marked as logged, and
the conversation keeps its current state (a raising handler returns no new
state); the dispatcher routes the error to `error_handler` and still runs
the group-1 catch-all logger afterwards. -/
def repairComplete (users : List UserRow) (uid : Nat) (field value : String)
    (stayConv : ConvState) (ud : UserData) : StepOut :=
  let users :=
    updateUserRows users uid (fun u =>
      set_user_status (set_pending_field (update_user_field u field value) none) "pending")
  { conv := stayConv, ud := ud, users := users, eventLog := [],
    replies := [], adminSends := [], fullUpserts := [], marked := false }

/-- `collect_name`. -/
def collect_name (uid : Nat) (users : List UserRow) (ud : UserData) (m : Msg) : StepOut :=
  match m with
  | Msg.text s =>
      if s == "" then
        { conv := ConvState.NAME, ud := ud, users := users, eventLog := [],
          replies := ["Invalid input. Please enter your full name (text only)."],
          adminSends := [], fullUpserts := [], marked := false }
      else
        let name := pyStrip s
        if is_english_name name then
          let ud := { ud with name := some name }
          match get_user users uid with
          | some ex =>
              if ex.status == "needs_update" then
                repairComplete users uid "name" name ConvState.NAME ud
              else
                { conv := ConvState.ID_CARD_PHOTO, ud := ud, users := users,
                  eventLog := [{ user_id := uid, msg_type := "name", content := name }],
                  replies := ["Please send a photo of your ID card:"],
                  adminSends := [], fullUpserts := [], marked := true }
          | none =>
              { conv := ConvState.ID_CARD_PHOTO, ud := ud, users := users,
                eventLog := [{ user_id := uid, msg_type := "name", content := name }],
                replies := ["Please send a photo of your ID card:"],
                adminSends := [], fullUpserts := [], marked := true }
        else
          { conv := ConvState.NAME, ud := ud, users := users, eventLog := [],
            replies := ["Invalid input. Please enter your full name in English letters only."],
            adminSends := [], fullUpserts := [], marked := false }
  | _ =>
      { conv := ConvState.NAME, ud := ud, users := users, eventLog := [],
        replies := ["Invalid input. Please enter your full name (text only)."],
        adminSends := [], fullUpserts := [], marked := false }

/-- `collect_id_card`. -/
def collect_id_card (uid : Nat) (users : List UserRow) (ud : UserData) (m : Msg) : StepOut :=
  match m with
  | Msg.photo fid =>
      let ud := { ud with id_card_file_id := some fid }
      match get_user users uid with
      | some ex =>
          if ex.status == "needs_update" then
            repairComplete users uid "id_card_file_id" fid ConvState.ID_CARD_PHOTO ud
          else
            { conv := ConvState.ID_NUMBER, ud := ud, users := users,
              eventLog := [{ user_id := uid, msg_type := "id_card_photo", file_id := fid }],
              replies := ["Enter your ID number:"],
              adminSends := [], fullUpserts := [], marked := true }
      | none =>
          { conv := ConvState.ID_NUMBER, ud := ud, users := users,
            eventLog := [{ user_id := uid, msg_type := "id_card_photo", file_id := fid }],
            replies := ["Enter your ID number:"],
            adminSends := [], fullUpserts := [], marked := true }
  | _ =>
      { conv := ConvState.ID_CARD_PHOTO, ud := ud, users := users, eventLog := [],
        replies := ["Invalid input. Please send a photo of your ID card."],
        adminSends := [], fullUpserts := [], marked := false }

/-- `collect_id_number`. -/
def collect_id_number (uid : Nat) (users : List UserRow) (ud : UserData) (m : Msg) : StepOut :=
  match m with
  | Msg.text s =>
      if s == "" then
        { conv := ConvState.ID_NUMBER, ud := ud, users := users, eventLog := [],
          replies := ["Invalid input. Please enter your ID number (text)."],
          adminSends := [], fullUpserts := [], marked := false }
      else
        let id_number := pyStrip s
        if pyIsdigit id_number then
          let ud := { ud with id_number := some id_number }
          match get_user users uid with
          | some ex =>
              if ex.status == "needs_update" then
                repairComplete users uid "id_number" id_number ConvState.ID_NUMBER ud
              else
                { conv := ConvState.SELFIE_WITH_ID, ud := ud, users := users,
                  eventLog := [{ user_id := uid, msg_type := "id_number", content := id_number }],
                  replies := ["Send a photo of yourself holding the ID card:"],
                  adminSends := [], fullUpserts := [], marked := true }
          | none =>
              { conv := ConvState.SELFIE_WITH_ID, ud := ud, users := users,
                eventLog := [{ user_id := uid, msg_type := "id_number", content := id_number }],
                replies := ["Send a photo of yourself holding the ID card:"],
                adminSends := [], fullUpserts := [], marked := true }
        else
          { conv := ConvState.ID_NUMBER, ud := ud, users := users, eventLog := [],
            replies := ["Invalid input. Please enter your ID number using digits only."],
            adminSends := [], fullUpserts := [], marked := false }
  | _ =>
      { conv := ConvState.ID_NUMBER, ud := ud, users := users, eventLog := [],
        replies := ["Invalid input. Please enter your ID number (text)."],
        adminSends := [], fullUpserts := [], marked := false }

/-- `collect_selfie_with_id`. -/
def collect_selfie_with_id (uid : Nat) (users : List UserRow) (ud : UserData) (m : Msg) : StepOut :=
  match m with
  | Msg.photo fid =>
      let ud := { ud with selfie_with_id_file_id := some fid }
      match get_user users uid with
      | some ex =>
          if ex.status == "needs_update" then
            repairComplete users uid "selfie_with_id_file_id" fid ConvState.SELFIE_WITH_ID ud
          else
            { conv := ConvState.EMAIL, ud := ud, users := users,
              eventLog := [{ user_id := uid, msg_type := "selfie_with_id", file_id := fid }],
              replies := ["Enter your email address:"],
              adminSends := [], fullUpserts := [], marked := true }
      | none =>
          { conv := ConvState.EMAIL, ud := ud, users := users,
            eventLog := [{ user_id := uid, msg_type := "selfie_with_id", file_id := fid }],
            replies := ["Enter your email address:"],
            adminSends := [], fullUpserts := [], marked := true }
  | _ =>
      { conv := ConvState.SELFIE_WITH_ID, ud := ud, users := users, eventLog := [],
        replies := ["Invalid input. Please send a photo of yourself holding the ID card."],
        adminSends := [], fullUpserts := [], marked := false }

/-- `collect_email`. Email is accepted unvalidated. On the full-intake path
this is the only collector that writes the User record: one `insert_user`
upsert of the aggregated working data, followed by the admin notification
carrying both photo references. The profile metadata fetched from the
transport (`get_profile_info`) enters as the last three parameters. -/
def collect_email (uid : Nat) (users : List UserRow) (ud : UserData) (m : Msg)
    (username bio profile_photo_file_id : String) : StepOut :=
  match m with
  | Msg.text s =>
      if s == "" then
        { conv := ConvState.EMAIL, ud := ud, users := users, eventLog := [],
          replies := ["Invalid input. Please enter your email address (text)."],
          adminSends := [], fullUpserts := [], marked := false }
      else
        let email := pyStrip s
        let ud := { ud with email := some email }
        match get_user users uid with
        | some ex =>
            if ex.status == "needs_update" then
              repairComplete users uid "email" email ConvState.EMAIL ud
            else
              let row := insert_user_row (get_user users uid) uid (ud.name.getD "")
                (ud.id_number.getD "") (ud.id_card_file_id.getD "")
                (ud.selfie_with_id_file_id.getD "") email username bio profile_photo_file_id
              let users := upsertUser users row
              { conv := ConvState.DONE, ud := ud, users := users,
                eventLog := [{ user_id := uid, msg_type := "email", content := email }],
                replies := ["Your info has been received. Please wait for admin approval."],
                adminSends := send_full_info_to_admin users uid ud.id_card_file_id
                  ud.selfie_with_id_file_id "New verification request:",
                fullUpserts := [row], marked := true }
        | none =>
            let row := insert_user_row (get_user users uid) uid (ud.name.getD "")
              (ud.id_number.getD "") (ud.id_card_file_id.getD "")
              (ud.selfie_with_id_file_id.getD "") email username bio profile_photo_file_id
            let users := upsertUser users row
            { conv := ConvState.DONE, ud := ud, users := users,
              eventLog := [{ user_id := uid, msg_type := "email", content := email }],
              replies := ["Your info has been received. Please wait for admin approval."],
              adminSends := send_full_info_to_admin users uid ud.id_card_file_id
                ud.selfie_with_id_file_id "New verification request:",
              fullUpserts := [row], marked := true }
  | _ =>
      { conv := ConvState.EMAIL, ud := ud, users := users, eventLog := [],
        replies := ["Invalid input. Please enter your email address (text)."],
        adminSends := [], fullUpserts := [], marked := false }

/-- The users table after `/start` for a fresh user: `increment_entry_count`
creates the row (column defaults apply), then `upsert_profile_meta`
refreshes the cached profile columns. -/
def startStore (uid : Nat) (username bio profile_photo_file_id : String) : List UserRow :=
  upsert_profile_meta (increment_entry_count [] uid) uid username bio profile_photo_file_id

/-- The generic tail of `log_any_message`: the `log_user_message` row the
group-1 catch-all appends for an inbound event of a sender who is the admin
of no pending flow and holds no session-flow registry entry, when no earlier
handler marked the event as logged. A text event is logged as type `text`
with its text as content, a photo as type `photo` with its file id (captions
and binary payload elided as in `LogEntry`); any other payload kind falls to
type `text` with empty content (documents, which get their own type in the
source, are not modelled as a separate constructor). -/
def logAnyMessageTail (uid : Nat) (m : Msg) : LogEntry :=
  match m with
  | Msg.text s => { user_id := uid, msg_type := "text", content := s }
  | Msg.photo fid => { user_id := uid, msg_type := "photo", file_id := fid }
  | Msg.other => { user_id := uid, msg_type := "text" }

/-- The interaction-log delta of one full update delivered to a user sitting
in a KYC intake state and holding no session-flow registry entry: the
conversation handler (group 0) runs the collector, then the group-1
catch-all `log_any_message` appends the generic entry for the event unless
the collector marked the event as logged. -/
def kycUpdateLog (out : StepOut) (uid : Nat) (m : Msg) : List LogEntry :=
  out.eventLog ++ (if out.marked then [] else [logAnyMessageTail uid m])

/-- The full five-field intake run in sequence on given inputs, starting
from empty working data, aggregating the side-effect traces of the five
collectors (the aggregate `marked` field carries the last step's flag; the
flag is meaningful per update, not per run, and no theorem uses the
aggregate one). -/
def fullIntake (uid : Nat) (users : List UserRow)
    (nameIn idCardIn idNumberIn selfieIn emailIn : String)
    (username bio profile_photo_file_id : String) : StepOut :=
  let o1 := collect_name uid users {} (Msg.text nameIn)
  let o2 := collect_id_card uid o1.users o1.ud (Msg.photo idCardIn)
  let o3 := collect_id_number uid o2.users o2.ud (Msg.text idNumberIn)
  let o4 := collect_selfie_with_id uid o3.users o3.ud (Msg.photo selfieIn)
  let o5 := collect_email uid o4.users o4.ud (Msg.text emailIn) username bio profile_photo_file_id
  { conv := o5.conv, ud := o5.ud, users := o5.users,
    eventLog := o1.eventLog ++ o2.eventLog ++ o3.eventLog ++ o4.eventLog ++ o5.eventLog,
    replies := o1.replies ++ o2.replies ++ o3.replies ++ o4.replies ++ o5.replies,
    adminSends := o1.adminSends ++ o2.adminSends ++ o3.adminSends ++ o4.adminSends ++ o5.adminSends,
    fullUpserts := o1.fullUpserts ++ o2.fullUpserts ++ o3.fullUpserts ++ o4.fullUpserts
      ++ o5.fullUpserts, marked := o5.marked }

/-- A row of the `exchange_requests` table. Defaults are the column defaults
of the CREATE TABLE statement. -/
structure ExchangeRow where
  id : Nat
  user_id : Nat
  tx_hash : Option String := none
  screenshot_file_id : Option String := none
  status : String := "pending_admin"
  approved_at : Option String := none
  expires_at : Option String := none
  payout_tx_hash : Option String := none
  payout_screenshot_file_id : Option String := none
  completed_at : Option String := none
  wallet_address : Option String := none
  user_wallet_address : Option String := none
  created_at : Option String := none
deriving DecidableEq, Repr

/-- Row effect of `set_exchange_status`: the status column is overwritten
unconditionally and every other column goes through
`COALESCE(existing, new)`. -/
def set_exchange_status (e : ExchangeRow) (status : String)
    (approved_at expires_at payout_tx_hash payout_screenshot_file_id completed_at
     wallet_address user_wallet_address : Option String) : ExchangeRow :=
  { e with
    status := status,
    approved_at := coalesce e.approved_at approved_at,
    expires_at := coalesce e.expires_at expires_at,
    payout_tx_hash := coalesce e.payout_tx_hash payout_tx_hash,
    payout_screenshot_file_id := coalesce e.payout_screenshot_file_id payout_screenshot_file_id,
    completed_at := coalesce e.completed_at completed_at,
    wallet_address := coalesce e.wallet_address wallet_address,
    user_wallet_address := coalesce e.user_wallet_address user_wallet_address }

/-- `SELECT * FROM exchange_requests WHERE id = ?` (`get_exchange`). -/
def get_exchange (exs : List ExchangeRow) (eid : Nat) : Option ExchangeRow :=
  exs.find? (fun e => e.id == eid)

/-- `UPDATE exchange_requests ... WHERE id = ?` as a row transformer applied
to the matching row. -/
def updateExchangeRows (exs : List ExchangeRow) (eid : Nat)
    (f : ExchangeRow → ExchangeRow) : List ExchangeRow :=
  exs.map (fun e => if e.id == eid then f e else e)

/-- The non-terminal statuses listed by the duplicate-open-request query in
`show_exchange`. -/
def nonTerminalStatuses : List String :=
  ["pending_admin", "awaiting_wallet", "awaiting_transfer", "awaiting_user_wallet",
   "awaiting_payout"]

/-- The open-request existence query of `show_exchange`: does any request of
this user sit in a non-terminal status. -/
def hasOpenExchange (exs : List ExchangeRow) (uid : Nat) : Bool :=
  exs.any (fun e => e.user_id == uid && nonTerminalStatuses.contains e.status)

/-- Thirty days, in seconds. Time enters the model as integer seconds. -/
def thirtyDaysSec : Int := 2592000

/-- The cooldown test of `show_exchange`:
`now - last_completed < timedelta(days=30)`. -/
def cooldownActive (lastCompleted : Option Int) (now : Int) : Bool :=
  match lastCompleted with
  | some t => now - t < thirtyDaysSec
  | none => false

/-- The remaining-days value `show_exchange` reports during cooldown:
`remaining.days or 1` where `remaining = timedelta(days=30) - delta` and
`.days` is floor division by one day. -/
def remainingDaysReport (deltaSec : Int) : Nat :=
  let d := (thirtyDaysSec - deltaSec).toNat / 86400
  if d = 0 then 1 else d

/-- Outcome of `show_exchange`, in the order the source checks them. -/
inductive ShowExchangeOutcome where
  | notApproved
  | cooldownRefusal (remaining_days : Nat)
  | pleaseWait
  | created (exchange_id : Nat)
deriving DecidableEq, Repr

/-- `show_exchange`: approval gate, then the 30-day cooldown on the most
recent completed exchange, then the single-open-request check, then
`insert_exchange_request conn user_id "" ""` (a fresh `pending_admin` row
with empty-string deposit evidence). `lastCompleted` is the result of
`get_last_completed_exchange_date`; `nextId` the AUTOINCREMENT id. -/
def show_exchange (userStatus : String) (lastCompleted : Option Int) (now : Int)
    (exs : List ExchangeRow) (uid nextId : Nat) : ShowExchangeOutcome × List ExchangeRow :=
  if userStatus != "approved" then (ShowExchangeOutcome.notApproved, exs)
  else if cooldownActive lastCompleted now then
    (ShowExchangeOutcome.cooldownRefusal (remainingDaysReport (now - lastCompleted.getD 0)), exs)
  else if hasOpenExchange exs uid then (ShowExchangeOutcome.pleaseWait, exs)
  else
    (ShowExchangeOutcome.created nextId,
     exs ++ [{ id := nextId, user_id := uid, tx_hash := some "",
               screenshot_file_id := some "" }])

/-- Result of the expiry job: the table and the notifications sent to the
user. -/
structure ExpireOut where
  exchanges : List ExchangeRow
  userNotices : List (Nat × String)
deriving DecidableEq, Repr

/-- `expire_exchange_request`: the 30-minute one-shot job. It re-reads the
request and acts only when it still exists and is still `awaiting_transfer`. -/
def expire_exchange_request (exs : List ExchangeRow) (exchange_id user_id : Nat) : ExpireOut :=
  match get_exchange exs exchange_id with
  | none => { exchanges := exs, userNotices := [] }
  | some e =>
      if e.status == "awaiting_transfer" then
        { exchanges :=
            updateExchangeRows exs exchange_id (fun x =>
              set_exchange_status x "expired" none none none none none none none),
          userNotices :=
            [(user_id, "Your exchange request expired. Please try again via Exchange.")] }
      else { exchanges := exs, userNotices := [] }

/-- The transient `exchange_collect` registry entry: the user owes deposit
evidence, hash first (`wait_hash`), then screenshot (`wait_photo`). -/
structure ExchangeCollect where
  exchange_id : Nat
  stage : String
  tx_hash : Option String := none
deriving DecidableEq, Repr

/-- Result of one step of an evidence sub-dialog: the (possibly removed)
registry entry, the exchange table, and the reply text. -/
structure FlowStepOut (F : Type) where
  flow : Option F
  exchanges : List ExchangeRow
  reply : String
deriving DecidableEq, Repr

/-- The user-side deposit-evidence branch of `log_any_message` for an
`exchange_collect` entry: in `wait_hash` only a non-empty text advances (a
photo is re-prompted); in `wait_photo` only a photo completes, writing
`tx_hash`, `screenshot_file_id` and status `pending_admin` on the exchange
row in one unconditional UPDATE, and dropping the registry entry. The admin
notification sent on completion is not material here and is elided. -/
def depositEvidenceStep (fl : ExchangeCollect) (m : Msg)
    (exs : List ExchangeRow) : FlowStepOut ExchangeCollect :=
  if fl.stage == "wait_hash" then
    match m with
    | Msg.text s =>
        if s == "" then
          { flow := some fl, exchanges := exs, reply := "Please send the transaction hash." }
        else
          { flow := some { fl with tx_hash := some (pyStrip s), stage := "wait_photo" },
            exchanges := exs,
            reply := "Hash received. Now send the payment screenshot." }
    | _ => { flow := some fl, exchanges := exs, reply := "Please send the transaction hash." }
  else if fl.stage == "wait_photo" then
    match m with
    | Msg.photo fid =>
        { flow := none,
          exchanges :=
            updateExchangeRows exs fl.exchange_id (fun e =>
              { e with tx_hash := some (fl.tx_hash.getD ""),
                       screenshot_file_id := some fid,
                       status := "pending_admin" }),
          reply := "Payment submitted. Await admin approval." }
    | _ => { flow := some fl, exchanges := exs, reply := "Please send the payment screenshot." }
  else { flow := some fl, exchanges := exs, reply := "" }

/-- The transient admin `payout_flow` registry entry. -/
structure PayoutFlow where
  exchange_id : Nat
  user_id : Nat
  user_wallet : String := ""
  stage : String
  payout_tx_hash : Option String := none
  payout_screenshot_file_id : Option String := none
deriving DecidableEq, Repr

/-- `finalize_payout`: mark the exchange `completed` with the accumulated
payout evidence and the completion time. -/
def finalize_payout (fl : PayoutFlow) (exs : List ExchangeRow) (now : String) : List ExchangeRow :=
  updateExchangeRows exs fl.exchange_id (fun e =>
    set_exchange_status e "completed" none none (some (fl.payout_tx_hash.getD ""))
      (some (fl.payout_screenshot_file_id.getD "")) (some now) none none)

/-- The admin payout-evidence branch of `log_any_message` for a
`payout_flow` entry: a non-empty text in `wait_hash_or_photo` or `wait_hash`
stores the hash; a photo in `wait_hash_or_photo` or `wait_photo` stores the
screenshot; whichever arrival completes the pair triggers `finalize_payout`
and removes the entry; an event matching neither branch falls through to the
generic logger unchanged (empty reply here). -/
def payoutEvidenceStep (fl : PayoutFlow) (m : Msg) (exs : List ExchangeRow)
    (now : String) : FlowStepOut PayoutFlow :=
  match m with
  | Msg.text s =>
      if (fl.stage == "wait_hash_or_photo" || fl.stage == "wait_hash") && s != "" then
        let fl := { fl with payout_tx_hash := some (pyStrip s) }
        if truthyS fl.payout_screenshot_file_id then
          { flow := none, exchanges := finalize_payout fl exs now,
            reply := "Payout sent to user " ++ toString fl.user_id ++ " for exchange #"
              ++ toString fl.exchange_id ++ "." }
        else
          { flow := some { fl with stage := "wait_photo" }, exchanges := exs,
            reply := "Got hash. Now send payout screenshot for exchange #"
              ++ toString fl.exchange_id ++ "." }
      else { flow := some fl, exchanges := exs, reply := "" }
  | Msg.photo fid =>
      if fl.stage == "wait_hash_or_photo" || fl.stage == "wait_photo" then
        let fl := { fl with payout_screenshot_file_id := some fid }
        if truthyS fl.payout_tx_hash then
          { flow := none, exchanges := finalize_payout fl exs now,
            reply := "Payout sent to user " ++ toString fl.user_id ++ " for exchange #"
              ++ toString fl.exchange_id ++ "." }
        else
          { flow := some { fl with stage := "wait_hash" }, exchanges := exs,
            reply := "Screenshot saved. Now send payout hash for exchange #"
              ++ toString fl.exchange_id ++ "." }
      else { flow := some fl, exchanges := exs, reply := "" }
  | Msg.other => { flow := some fl, exchanges := exs, reply := "" }

/-- Two consecutive events fed to the payout-evidence sub-dialog (the second
one only reaches the sub-dialog when the entry still exists). -/
def payoutRunTwo (fl : PayoutFlow) (m1 m2 : Msg) (exs : List ExchangeRow)
    (now : String) : Option PayoutFlow × List ExchangeRow :=
  let o1 := payoutEvidenceStep fl m1 exs now
  match o1.flow with
  | none => (none, o1.exchanges)
  | some fl1 =>
      let o2 := payoutEvidenceStep fl1 m2 o1.exchanges now
      (o2.flow, o2.exchanges)

/-- Two consecutive events fed to the deposit-evidence sub-dialog. -/
def depositRunTwo (fl : ExchangeCollect) (m1 m2 : Msg)
    (exs : List ExchangeRow) : Option ExchangeCollect × List ExchangeRow :=
  let o1 := depositEvidenceStep fl m1 exs
  match o1.flow with
  | none => (none, o1.exchanges)
  | some fl1 =>
      let o2 := depositEvidenceStep fl1 m2 o1.exchanges
      (o2.flow, o2.exchanges)

/-- Outcome of the admin `send_ex` callback branch of
`handle_exchange_approval`. A refusal carries the literal reply text (the
source wraps the status in single quotes; the quotes are elided here). The
started case records the `payout_flow` registry entry that is created; no
store row is touched in any case. -/
inductive SendExOutcome where
  | notFound
  | refused (msg : String)
  | started (fl : PayoutFlow)
deriving DecidableEq, Repr

/-- The `send_ex` branch: look up the exchange; refuse naming the current
status unless it is `awaiting_payout`; refuse when no truthy user payout
wallet is on file; otherwise open the payout sub-dialog. -/
def send_ex (exs : List ExchangeRow) (exchange_id : Nat) : SendExOutcome :=
  match get_exchange exs exchange_id with
  | none => SendExOutcome.notFound
  | some ex =>
      if ex.status != "awaiting_payout" then
        SendExOutcome.refused ("Exchange #" ++ toString exchange_id ++ " is in status "
          ++ ex.status ++ ". Cannot start payout.")
      else if !truthyS ex.user_wallet_address then
        SendExOutcome.refused ("Payout wallet for exchange #" ++ toString exchange_id
          ++ " not received yet.")
      else
        SendExOutcome.started
          { exchange_id := exchange_id, user_id := ex.user_id,
            user_wallet := ex.user_wallet_address.getD "",
            stage := "wait_hash_or_photo" }

/-- Row effects of `handle_user_approval`: approve and reject set only the
status column. -/
def handle_user_approval (u : UserRow) (action : String) : UserRow :=
  if action == "approve_user" then set_user_status u "approved"
  else if action == "reject_user" then set_user_status u "rejected"
  else u

/-- Row effect of `handle_field_issue`: status `needs_update` plus the
flagged `pending_field`. -/
def handle_field_issue (u : UserRow) (field_key : String) : UserRow :=
  set_pending_field (set_user_status u "needs_update") (some field_key)

/-- Row effect of `finalize_pending_update` (repair completion): clear
`pending_field` and set the status back to `pending`. -/
def finalize_pending_update (u : UserRow) : UserRow :=
  set_user_status (set_pending_field u none) "pending"

/-- The `pending_field`/`needs_update` equivalence claimed in the data
model. -/
def pendingInvariant (u : UserRow) : Prop :=
  u.pending_field ≠ none ↔ u.status = "needs_update"

instance (u : UserRow) : Decidable (pendingInvariant u) := by
  unfold pendingInvariant
  infer_instance

/-- The conversation states each `ConversationHandler` state can return,
read off the handler functions: the five collectors, `begin_auth`,
`update_field_choice`, `show_rules`, `show_exchange`,
`collect_exchange_hash`, `collect_exchange_screenshot`, and the `/start`
fallback (which re-enters SELECT from anywhere). -/
def handlerSuccessors : ConvState → List ConvState
  | ConvState.SELECT =>
      [ConvState.SELECT, ConvState.NAME, ConvState.ID_CARD_PHOTO, ConvState.ID_NUMBER,
       ConvState.SELFIE_WITH_ID, ConvState.EMAIL]
  | ConvState.NAME => [ConvState.SELECT, ConvState.NAME, ConvState.ID_CARD_PHOTO, ConvState.DONE]
  | ConvState.ID_CARD_PHOTO =>
      [ConvState.SELECT, ConvState.ID_CARD_PHOTO, ConvState.ID_NUMBER, ConvState.DONE]
  | ConvState.ID_NUMBER =>
      [ConvState.SELECT, ConvState.ID_NUMBER, ConvState.SELFIE_WITH_ID, ConvState.DONE]
  | ConvState.SELFIE_WITH_ID =>
      [ConvState.SELECT, ConvState.SELFIE_WITH_ID, ConvState.EMAIL, ConvState.DONE]
  | ConvState.EMAIL => [ConvState.SELECT, ConvState.EMAIL, ConvState.DONE]
  | ConvState.EX_HASH => [ConvState.SELECT, ConvState.EX_HASH, ConvState.EX_SCREEN]
  | ConvState.EX_SCREEN => [ConvState.SELECT, ConvState.EX_SCREEN, ConvState.DONE]
  | ConvState.DONE => [ConvState.SELECT]

/-- Conversation states reachable from the `/start` entry point, which
returns SELECT. -/
inductive ConvReach : ConvState → Prop where
  | start : ConvReach ConvState.SELECT
  | step (s t : ConvState) : ConvReach s → t ∈ handlerSuccessors s → ConvReach t

/-- States outside the dead exchange-evidence pair. -/
def outsideExPair (s : ConvState) : Bool :=
  match s with
  | ConvState.EX_HASH => false
  | ConvState.EX_SCREEN => false
  | _ => true

/-- Does the second character list start with the first. -/
def leadsWith : List Char → List Char → Bool
  | [], _ => true
  | _ :: _, [] => false
  | a :: as, b :: bs => a == b && leadsWith as bs

/-- Does a character list contain the given sub-list contiguously. -/
def hasSub (l sub : List Char) : Bool :=
  match l with
  | [] => sub.isEmpty
  | c :: rest => leadsWith sub (c :: rest) || hasSub rest sub

/-- Does a message mention the given status as a substring. -/
def mentionsStatus (msg st : String) : Bool :=
  hasSub msg.toList st.toList

/-- The input `collect_name` accepts: a non-empty text that trims to a valid
English name. -/
def nameInputAccepted : Msg → Bool
  | Msg.text s => s != "" && is_english_name (pyStrip s)
  | _ => false

/-- The input the two photo collectors accept: any photo attachment. -/
def photoInputAccepted : Msg → Bool
  | Msg.photo _ => true
  | _ => false

/-- The input `collect_id_number` accepts: a non-empty text trimming to an
all-digits string. -/
def idNumberInputAccepted : Msg → Bool
  | Msg.text s => s != "" && pyIsdigit (pyStrip s)
  | _ => false

/-- The input `collect_email` accepts: any non-empty text (email format is
intentionally unvalidated). -/
def emailInputAccepted : Msg → Bool
  | Msg.text s => s != ""
  | _ => false

theorem successorsClosed (s t : ConvState) (hs : outsideExPair s = true)
    (ht : t ∈ handlerSuccessors s) : outsideExPair t = true := by
  cases s <;> cases t <;> simp_all [handlerSuccessors, outsideExPair]

theorem convReach_outsideExPair (s : ConvState) (h : ConvReach s) : outsideExPair s = true := by
  induction h with
  | start => rfl
  | step s t _ ht ih => exact successorsClosed s t ih ht

/-- C10: `set_exchange_status` overwrites only the status column; each of
`approved_at`, `expires_at`, `payout_tx_hash`, `payout_screenshot_file_id`,
`completed_at`, `wallet_address` and `user_wallet_address` is write-once:
once non-null it is never changed by a later call. -/
theorem C10_write_once (e : ExchangeRow) (st : String)
    (a b c d f g h : Option String) :
    (set_exchange_status e st a b c d f g h).status = st ∧
    (∀ v, e.approved_at = some v → (set_exchange_status e st a b c d f g h).approved_at = some v) ∧
    (∀ v, e.expires_at = some v → (set_exchange_status e st a b c d f g h).expires_at = some v) ∧
    (∀ v, e.payout_tx_hash = some v →
      (set_exchange_status e st a b c d f g h).payout_tx_hash = some v) ∧
    (∀ v, e.payout_screenshot_file_id = some v →
      (set_exchange_status e st a b c d f g h).payout_screenshot_file_id = some v) ∧
    (∀ v, e.completed_at = some v → (set_exchange_status e st a b c d f g h).completed_at = some v) ∧
    (∀ v, e.wallet_address = some v →
      (set_exchange_status e st a b c d f g h).wallet_address = some v) ∧
    (∀ v, e.user_wallet_address = some v →
      (set_exchange_status e st a b c d f g h).user_wallet_address = some v) := by
  refine ⟨rfl, ?_, ?_, ?_, ?_, ?_, ?_, ?_⟩ <;>
    intro v hv <;> simp [set_exchange_status, coalesce, hv]

/-- Witness for C10 at a concrete row: a non-null `approved_at` survives a
later status change. -/
theorem C10_write_once_witness :
    ({ id := 1, user_id := 2, approved_at := some "A" : ExchangeRow }.approved_at = some "A") ∧
    (set_exchange_status { id := 1, user_id := 2, approved_at := some "A" } "expired"
      (some "B") none none none none none none).approved_at = some "A" :=
  ⟨rfl, (C10_write_once { id := 1, user_id := 2, approved_at := some "A" } "expired"
    (some "B") none none none none none none).2.1 "A" rfl⟩

/-- C4: the 30-minute expiry job re-reads the request; when it is still
`awaiting_transfer` it becomes `expired` and the user is notified, and in
every other case (status moved on, or the request missing) the store is left
untouched and no notification is sent. -/
theorem C4_expiry_revalidates (exs : List ExchangeRow) (eid uid : Nat) :
    (∀ e, get_exchange exs eid = some e → e.status = "awaiting_transfer" →
      expire_exchange_request exs eid uid =
        { exchanges := updateExchangeRows exs eid (fun x =>
            set_exchange_status x "expired" none none none none none none none),
          userNotices :=
            [(uid, "Your exchange request expired. Please try again via Exchange.")] }) ∧
    (∀ e, get_exchange exs eid = some e → e.status ≠ "awaiting_transfer" →
      expire_exchange_request exs eid uid = { exchanges := exs, userNotices := [] }) ∧
    (get_exchange exs eid = none →
      expire_exchange_request exs eid uid = { exchanges := exs, userNotices := [] }) := by
  refine ⟨?_, ?_, ?_⟩
  · intro e hfind hst
    simp [expire_exchange_request, hfind, hst]
  · intro e hfind hst
    simp [expire_exchange_request, hfind, hst]
  · intro hfind
    simp [expire_exchange_request, hfind]

/-- Witness for C4: a stale firing (status already `pending_admin`) mutates
nothing and notifies nobody. -/
theorem C4_expiry_revalidates_witness :
    (get_exchange [{ id := 5, user_id := 9, status := "pending_admin" }] 5 =
      some { id := 5, user_id := 9, status := "pending_admin" }) ∧
    expire_exchange_request [{ id := 5, user_id := 9, status := "pending_admin" }] 5 9 =
      { exchanges := [{ id := 5, user_id := 9, status := "pending_admin" }], userNotices := [] } :=
  ⟨by decide,
   (C4_expiry_revalidates [{ id := 5, user_id := 9, status := "pending_admin" }] 5 9).2.1
     { id := 5, user_id := 9, status := "pending_admin" } (by decide) (by decide)⟩

/-- C5: with an approved user whose most recent completed exchange lies
fewer than 30 days back, `show_exchange` refuses, inserts no row, and
reports a remaining-days value of at least 1. -/
theorem C5_cooldown (userStatus : String) (t now : Int) (exs : List ExchangeRow)
    (uid nextId : Nat) (hs : userStatus = "approved") (hlt : now - t < thirtyDaysSec) :
    show_exchange userStatus (some t) now exs uid nextId =
      (ShowExchangeOutcome.cooldownRefusal (remainingDaysReport (now - t)), exs) ∧
    1 ≤ remainingDaysReport (now - t) := by
  subst hs
  constructor
  · simp [show_exchange, cooldownActive, hlt]
  · by_cases h : (thirtyDaysSec - (now - t)).toNat / 86400 = 0
    · simp [remainingDaysReport, h]
    · simp [remainingDaysReport, h]
      omega

/-- Witness for C5 at a concrete time 29 days and 23 hours after the last
completed exchange: the refusal reports 1 day. -/
theorem C5_cooldown_witness :
    show_exchange "approved" (some 0) 2588400 [] 3 1 =
      (ShowExchangeOutcome.cooldownRefusal (remainingDaysReport 2588400), []) ∧
    1 ≤ remainingDaysReport 2588400 :=
  C5_cooldown "approved" 0 2588400 [] 3 1 rfl (by decide)

/-- C7 counterexample: admin approval of a user whose status is
`needs_update` sets the status to `approved` without clearing
`pending_field`, breaking the claimed equivalence. -/
theorem C7_counterexample :
    pendingInvariant { telegram_id := 5, status := "needs_update", pending_field := some "name" } ∧
    ¬ pendingInvariant (handle_user_approval
      { telegram_id := 5, status := "needs_update", pending_field := some "name" }
      "approve_user") := by
  constructor
  · decide
  · decide

/-- C7 amended: field-issue flagging and repair completion establish the
`pending_field`/`needs_update` equivalence, and admin approve/reject
preserve it exactly when `pending_field` is already null (they never clear
the field themselves). -/
theorem C7_pending_invariant :
    (∀ (u : UserRow) (k : String), pendingInvariant (handle_field_issue u k)) ∧
    (∀ u : UserRow, pendingInvariant (finalize_pending_update u)) ∧
    (∀ u : UserRow, u.pending_field = none →
      pendingInvariant (handle_user_approval u "approve_user") ∧
      pendingInvariant (handle_user_approval u "reject_user")) := by
  refine ⟨?_, ?_, ?_⟩
  · intro u k
    simp [pendingInvariant, handle_field_issue, set_user_status, set_pending_field]
  · intro u
    simp [pendingInvariant, finalize_pending_update, set_user_status, set_pending_field]
  · intro u h
    constructor <;>
      simp [pendingInvariant, handle_user_approval, set_user_status, h]

/-- Witness for C7 amended: approving a user with no pending field keeps the
equivalence. -/
theorem C7_pending_invariant_witness :
    ({ telegram_id := 5 : UserRow }.pending_field = none) ∧
    pendingInvariant (handle_user_approval { telegram_id := 5 } "approve_user") :=
  ⟨rfl, (C7_pending_invariant.2.2 { telegram_id := 5 } rfl).1⟩

/-- C8 counterexample: an exchange in status `awaiting_payout` with no
payout wallet on file is refused, but the refusal text is the
wallet-missing message, which does not name the current status. -/
theorem C8_counterexample :
    (get_exchange [{ id := 7, user_id := 9, status := "awaiting_payout" }] 7).map
      (fun e => e.status) = some "awaiting_payout" ∧
    send_ex [{ id := 7, user_id := 9, status := "awaiting_payout" }] 7 =
      SendExOutcome.refused "Payout wallet for exchange #7 not received yet." ∧
    mentionsStatus "Payout wallet for exchange #7 not received yet." "awaiting_payout" = false := by
  refine ⟨by decide, by decide, by decide⟩

/-- C8 amended: `send_ex` starts the payout sub-dialog exactly when the
exchange is `awaiting_payout` with a truthy payout wallet on file; a wrong
status is refused with a message embedding that status; a missing wallet is
refused with the wallet-missing message; a missing exchange is reported. No
refusal touches the store or the registry. -/
theorem C8_send_ex_guard (exs : List ExchangeRow) (eid : Nat) :
    (∀ ex, get_exchange exs eid = some ex → ex.status ≠ "awaiting_payout" →
      send_ex exs eid = SendExOutcome.refused (("Exchange #" ++ toString eid
        ++ " is in status ") ++ ex.status ++ ". Cannot start payout.")) ∧
    (∀ ex, get_exchange exs eid = some ex → ex.status = "awaiting_payout" →
      truthyS ex.user_wallet_address = false →
      send_ex exs eid = SendExOutcome.refused ("Payout wallet for exchange #"
        ++ toString eid ++ " not received yet.")) ∧
    (∀ ex, get_exchange exs eid = some ex → ex.status = "awaiting_payout" →
      truthyS ex.user_wallet_address = true →
      send_ex exs eid = SendExOutcome.started
        { exchange_id := eid, user_id := ex.user_id,
          user_wallet := ex.user_wallet_address.getD "",
          stage := "wait_hash_or_photo" }) ∧
    (get_exchange exs eid = none → send_ex exs eid = SendExOutcome.notFound) := by
  refine ⟨?_, ?_, ?_, ?_⟩
  · intro ex hfind hst
    simp [send_ex, hfind, hst]
  · intro ex hfind hst hw
    simp [send_ex, hfind, hst, hw]
  · intro ex hfind hst hw
    simp [send_ex, hfind, hst, hw]
  · intro hfind
    simp [send_ex, hfind]

/-- Witness for C8 amended: a `pending_admin` exchange is refused with a
message embedding the status `pending_admin`. -/
theorem C8_send_ex_guard_witness :
    (get_exchange [{ id := 7, user_id := 9, status := "pending_admin" }] 7 =
      some { id := 7, user_id := 9, status := "pending_admin" }) ∧
    send_ex [{ id := 7, user_id := 9, status := "pending_admin" }] 7 =
      SendExOutcome.refused (("Exchange #" ++ toString 7 ++ " is in status ")
        ++ "pending_admin" ++ ". Cannot start payout.") :=
  ⟨by decide,
   (C8_send_ex_guard [{ id := 7, user_id := 9, status := "pending_admin" }] 7).1
     { id := 7, user_id := 9, status := "pending_admin" } (by decide) (by decide)⟩

/-- C1 counterexample: a fresh user who sends `/start` and then completes
the full five-field intake ends with attempts = 2, not 1. `/start` already
upserts the row (attempts taking the column default 1, status the default
`pending`), so `insert_user` sees an existing non-`needs_update` row and
increments. -/
theorem C1_counterexample :
    (get_user (fullIntake 42 (startStore 42 "" "" "") "John Doe" "card1" "12345" "selfie1"
        "a@b.com" "" "" "").users 42).map (fun u => u.attempts) = some (some 2) ∧
    (get_user (fullIntake 42 (startStore 42 "" "" "") "John Doe" "card1" "12345" "selfie1"
        "a@b.com" "" "" "").users 42).map (fun u => u.attempts) ≠ some (some 1) ∧
    (get_user (fullIntake 42 (startStore 42 "" "" "") "John Doe" "card1" "12345" "selfie1"
        "a@b.com" "" "" "").users 42).map (fun u => u.status) = some "pending" := by
  refine ⟨by decide, by decide, by decide⟩

/-- C1 amended: in the `/start`-then-full-intake scenario the resulting row
has attempts = 2, because `/start` pre-creates the row with the column
default attempts = 1 and the submission counts as an increment; in general,
`insert_user` keeps the attempt counter when the prior persisted status was
`needs_update` (normalising null/0 to 1), increments it otherwise, and
starts at 1 when no row existed at all. -/
theorem C1_attempt_counter :
    ((get_user (fullIntake 42 (startStore 42 "" "" "") "John Doe" "card1" "12345" "selfie1"
        "a@b.com" "" "" "").users 42).map (fun u => u.attempts) = some (some 2)) ∧
    (∀ (ex : UserRow) (tid : Nat) (n idn idc sf em un bio ppf : String),
      ex.status = "needs_update" →
      (insert_user_row (some ex) tid n idn idc sf em un bio ppf).attempts =
        some (pyOrOne ex.attempts)) ∧
    (∀ (ex : UserRow) (tid : Nat) (n idn idc sf em un bio ppf : String),
      ex.status ≠ "needs_update" →
      (insert_user_row (some ex) tid n idn idc sf em un bio ppf).attempts =
        some (pyOrOne ex.attempts + 1)) ∧
    (∀ (tid : Nat) (n idn idc sf em un bio ppf : String),
      (insert_user_row none tid n idn idc sf em un bio ppf).attempts = some 1) := by
  refine ⟨by decide, ?_, ?_, ?_⟩
  · intro ex tid n idn idc sf em un bio ppf hst
    simp [insert_user_row, hst]
  · intro ex tid n idn idc sf em un bio ppf hst
    simp [insert_user_row, hst]
  · intro tid n idn idc sf em un bio ppf
    rfl

/-- Witness for C1 amended: a resubmission from a `needs_update` row with 3
attempts keeps 3; from a `pending` row with 3 attempts it becomes 4. -/
theorem C1_attempt_counter_witness :
    ({ telegram_id := 9, status := "needs_update", attempts := some 3 : UserRow }.status =
      "needs_update") ∧
    (insert_user_row (some { telegram_id := 9, status := "needs_update", attempts := some 3 })
      9 "n" "1" "c" "s" "e" "" "" "").attempts = some 3 :=
  ⟨rfl, C1_attempt_counter.2.1
    { telegram_id := 9, status := "needs_update", attempts := some 3 }
    9 "n" "1" "c" "s" "e" "" "" "" rfl⟩

/-- C2: while a user has a request in a non-terminal status, `show_exchange`
never appends a row whatever the user status and cooldown situation, and on
the normal path (approved, no cooldown) it refuses with the please-wait
outcome; the only other call site of `insert_exchange_request`
(`collect_exchange_screenshot`) sits in conversation state EX_SCREEN, which
is unreachable from the `/start` entry point. -/
theorem C2_single_open_request :
    (∀ (exs : List ExchangeRow) (uid nextId : Nat) (userStatus : String)
       (lastCompleted : Option Int) (now : Int),
      hasOpenExchange exs uid = true →
      (show_exchange userStatus lastCompleted now exs uid nextId).2 = exs) ∧
    (∀ (exs : List ExchangeRow) (uid nextId : Nat) (lastCompleted : Option Int) (now : Int),
      hasOpenExchange exs uid = true → cooldownActive lastCompleted now = false →
      show_exchange "approved" lastCompleted now exs uid nextId =
        (ShowExchangeOutcome.pleaseWait, exs)) ∧
    ¬ ConvReach ConvState.EX_SCREEN := by
  refine ⟨?_, ?_, ?_⟩
  · intro exs uid nextId userStatus lastCompleted now h
    cases hb1 : userStatus != "approved" with
    | true => simp [show_exchange, hb1]
    | false =>
        cases hb2 : cooldownActive lastCompleted now with
        | true => simp [show_exchange, hb1, hb2]
        | false => simp [show_exchange, hb1, hb2, h]
  · intro exs uid nextId lastCompleted now h hcd
    simp [show_exchange, h, hcd]
  · intro hreach
    have h := convReach_outsideExPair ConvState.EX_SCREEN hreach
    simp [outsideExPair] at h

/-- Witness for C2 at a store holding an open `pending_admin` request. -/
theorem C2_single_open_request_witness :
    (hasOpenExchange [{ id := 3, user_id := 8, status := "pending_admin" }] 8 = true) ∧
    (cooldownActive none 0 = false) ∧
    show_exchange "approved" none 0 [{ id := 3, user_id := 8, status := "pending_admin" }] 8 4 =
      (ShowExchangeOutcome.pleaseWait, [{ id := 3, user_id := 8, status := "pending_admin" }]) :=
  ⟨by decide, by decide,
   C2_single_open_request.2.1 [{ id := 3, user_id := 8, status := "pending_admin" }] 8 4 none 0
     (by decide) (by decide)⟩

/-- C3 counterexample: the deposit-evidence flow is not order independent.
From stage `wait_hash`, hash-then-screenshot completes (status
`pending_admin`, both fields written) while screenshot-then-hash is
re-prompted on the screenshot and leaves the store untouched, so the two
orders do not converge. -/
theorem C3_counterexample :
    depositRunTwo { exchange_id := 1, stage := "wait_hash" } (Msg.text "h1") (Msg.photo "p1")
        [{ id := 1, user_id := 42, status := "awaiting_transfer" }] ≠
      depositRunTwo { exchange_id := 1, stage := "wait_hash" } (Msg.photo "p1") (Msg.text "h1")
        [{ id := 1, user_id := 42, status := "awaiting_transfer" }] ∧
    (depositRunTwo { exchange_id := 1, stage := "wait_hash" } (Msg.photo "p1") (Msg.text "h1")
        [{ id := 1, user_id := 42, status := "awaiting_transfer" }]).2 =
      [{ id := 1, user_id := 42, status := "awaiting_transfer" }] := by
  refine ⟨by decide, by decide⟩

/-- C3 amended: the payout rendezvous is order independent (hash-then-photo
and photo-then-hash converge to the same registry state and the same
persisted exchange row, given a non-blank hash and a non-empty photo id);
the deposit rendezvous instead accepts only hash first: a photo in
`wait_hash` is re-prompted with no change, and hash-then-photo advances the
exchange to `pending_admin` with both evidence fields persisted. -/
theorem C3_rendezvous (eid uid2 : Nat) (w h p : String) (exs : List ExchangeRow)
    (now : String) (hh : h ≠ "") (hht : pyStrip h ≠ "") (hp : p ≠ "") :
    payoutRunTwo
        { exchange_id := eid, user_id := uid2, user_wallet := w, stage := "wait_hash_or_photo" }
        (Msg.text h) (Msg.photo p) exs now =
      payoutRunTwo
        { exchange_id := eid, user_id := uid2, user_wallet := w, stage := "wait_hash_or_photo" }
        (Msg.photo p) (Msg.text h) exs now ∧
    depositEvidenceStep { exchange_id := eid, stage := "wait_hash" } (Msg.photo p) exs =
      { flow := some { exchange_id := eid, stage := "wait_hash" }, exchanges := exs,
        reply := "Please send the transaction hash." } ∧
    depositRunTwo { exchange_id := eid, stage := "wait_hash" } (Msg.text h) (Msg.photo p) exs =
      (none, updateExchangeRows exs eid (fun e =>
        { e with tx_hash := some (pyStrip h), screenshot_file_id := some p,
                 status := "pending_admin" })) := by
  refine ⟨?_, ?_, ?_⟩
  · simp [payoutRunTwo, payoutEvidenceStep, truthyS, finalize_payout, hh, hht, hp]
  · simp [depositEvidenceStep]
  · simp [depositRunTwo, depositEvidenceStep, hh]

/-- Witness for C3 amended at concrete evidence values. -/
theorem C3_rendezvous_witness :
    ("h1" ≠ "") ∧ (pyStrip "h1" ≠ "") ∧ ("p1" ≠ "") ∧
    payoutRunTwo { exchange_id := 1, user_id := 42, user_wallet := "w", stage := "wait_hash_or_photo" }
        (Msg.text "h1") (Msg.photo "p1")
        [{ id := 1, user_id := 42, status := "awaiting_payout" }] "T" =
      payoutRunTwo { exchange_id := 1, user_id := 42, user_wallet := "w", stage := "wait_hash_or_photo" }
        (Msg.photo "p1") (Msg.text "h1")
        [{ id := 1, user_id := 42, status := "awaiting_payout" }] "T" :=
  ⟨by decide, by decide, by decide,
   (C3_rendezvous 1 42 "w" "h1" "p1" [{ id := 1, user_id := 42, status := "awaiting_payout" }]
     "T" (by decide) (by decide) (by decide)).1⟩

/-- C6 counterexample: a photo sent in the NAME state is rejected with a
re-prompt and no user-row mutation, but the full update processing still
appends an InteractionLog entry for the rejected event: the collector never
marks the event as logged, so the group-1 catch-all records it, refuting
the claimed "no persisted-store mutation, and no InteractionLog entry for
the rejected event". -/
theorem C6_counterexample :
    (collect_name 1 [] {} (Msg.photo "f")).conv = ConvState.NAME ∧
    (collect_name 1 [] {} (Msg.photo "f")).users = [] ∧
    (collect_name 1 [] {} (Msg.photo "f")).replies.length = 1 ∧
    (collect_name 1 [] {} (Msg.photo "f")).marked = false ∧
    kycUpdateLog (collect_name 1 [] {} (Msg.photo "f")) 1 (Msg.photo "f") =
      [{ user_id := 1, msg_type := "photo", content := "", file_id := "f" }] ∧
    kycUpdateLog (collect_name 1 [] {} (Msg.photo "f")) 1 (Msg.photo "f") ≠ [] := by
  refine ⟨by decide, by decide, by decide, by decide, by decide, by decide⟩

/-- C6 amended: in every KYC intake state, an input of the wrong kind or
failing validation leaves the conversation in the same state, the users
table untouched, the working data untouched, performs no upsert, notifies
no admin, and the collector itself appends no interaction-log entry — a
single re-prompt reply is sent; but the rejected event is still persisted
once in the InteractionLog, as the generic history entry the group-1
catch-all logger appends because the collector does not mark the rejected
event as logged. -/
theorem C6_reject_reprompt_logged :
    (∀ (uid : Nat) (users : List UserRow) (ud : UserData) (m : Msg),
      nameInputAccepted m = false →
      (collect_name uid users ud m).conv = ConvState.NAME ∧
      (collect_name uid users ud m).users = users ∧
      (collect_name uid users ud m).ud = ud ∧
      (collect_name uid users ud m).eventLog = [] ∧
      (collect_name uid users ud m).adminSends = [] ∧
      (collect_name uid users ud m).fullUpserts = [] ∧
      (collect_name uid users ud m).replies.length = 1 ∧
      kycUpdateLog (collect_name uid users ud m) uid m = [logAnyMessageTail uid m]) ∧
    (∀ (uid : Nat) (users : List UserRow) (ud : UserData) (m : Msg),
      photoInputAccepted m = false →
      (collect_id_card uid users ud m).conv = ConvState.ID_CARD_PHOTO ∧
      (collect_id_card uid users ud m).users = users ∧
      (collect_id_card uid users ud m).ud = ud ∧
      (collect_id_card uid users ud m).eventLog = [] ∧
      (collect_id_card uid users ud m).adminSends = [] ∧
      (collect_id_card uid users ud m).fullUpserts = [] ∧
      (collect_id_card uid users ud m).replies.length = 1 ∧
      kycUpdateLog (collect_id_card uid users ud m) uid m = [logAnyMessageTail uid m]) ∧
    (∀ (uid : Nat) (users : List UserRow) (ud : UserData) (m : Msg),
      idNumberInputAccepted m = false →
      (collect_id_number uid users ud m).conv = ConvState.ID_NUMBER ∧
      (collect_id_number uid users ud m).users = users ∧
      (collect_id_number uid users ud m).ud = ud ∧
      (collect_id_number uid users ud m).eventLog = [] ∧
      (collect_id_number uid users ud m).adminSends = [] ∧
      (collect_id_number uid users ud m).fullUpserts = [] ∧
      (collect_id_number uid users ud m).replies.length = 1 ∧
      kycUpdateLog (collect_id_number uid users ud m) uid m = [logAnyMessageTail uid m]) ∧
    (∀ (uid : Nat) (users : List UserRow) (ud : UserData) (m : Msg),
      photoInputAccepted m = false →
      (collect_selfie_with_id uid users ud m).conv = ConvState.SELFIE_WITH_ID ∧
      (collect_selfie_with_id uid users ud m).users = users ∧
      (collect_selfie_with_id uid users ud m).ud = ud ∧
      (collect_selfie_with_id uid users ud m).eventLog = [] ∧
      (collect_selfie_with_id uid users ud m).adminSends = [] ∧
      (collect_selfie_with_id uid users ud m).fullUpserts = [] ∧
      (collect_selfie_with_id uid users ud m).replies.length = 1 ∧
      kycUpdateLog (collect_selfie_with_id uid users ud m) uid m = [logAnyMessageTail uid m]) ∧
    (∀ (uid : Nat) (users : List UserRow) (ud : UserData) (m : Msg) (un bio ppf : String),
      emailInputAccepted m = false →
      (collect_email uid users ud m un bio ppf).conv = ConvState.EMAIL ∧
      (collect_email uid users ud m un bio ppf).users = users ∧
      (collect_email uid users ud m un bio ppf).ud = ud ∧
      (collect_email uid users ud m un bio ppf).eventLog = [] ∧
      (collect_email uid users ud m un bio ppf).adminSends = [] ∧
      (collect_email uid users ud m un bio ppf).fullUpserts = [] ∧
      (collect_email uid users ud m un bio ppf).replies.length = 1 ∧
      kycUpdateLog (collect_email uid users ud m un bio ppf) uid m =
        [logAnyMessageTail uid m]) := by
  refine ⟨?_, ?_, ?_, ?_, ?_⟩
  · intro uid users ud m hm
    cases m with
    | text s =>
        simp [nameInputAccepted] at hm
        by_cases hs : s = ""
        · simp [collect_name, hs, kycUpdateLog, logAnyMessageTail]
        · have hev := hm hs
          simp [collect_name, hs, hev, kycUpdateLog, logAnyMessageTail]
    | photo f => simp [collect_name, kycUpdateLog, logAnyMessageTail]
    | other => simp [collect_name, kycUpdateLog, logAnyMessageTail]
  · intro uid users ud m hm
    cases m with
    | text s => simp [collect_id_card, kycUpdateLog, logAnyMessageTail]
    | photo f => simp [photoInputAccepted] at hm
    | other => simp [collect_id_card, kycUpdateLog, logAnyMessageTail]
  · intro uid users ud m hm
    cases m with
    | text s =>
        simp [idNumberInputAccepted] at hm
        by_cases hs : s = ""
        · simp [collect_id_number, hs, kycUpdateLog, logAnyMessageTail]
        · have hev := hm hs
          simp [collect_id_number, hs, hev, kycUpdateLog, logAnyMessageTail]
    | photo f => simp [collect_id_number, kycUpdateLog, logAnyMessageTail]
    | other => simp [collect_id_number, kycUpdateLog, logAnyMessageTail]
  · intro uid users ud m hm
    cases m with
    | text s => simp [collect_selfie_with_id, kycUpdateLog, logAnyMessageTail]
    | photo f => simp [photoInputAccepted] at hm
    | other => simp [collect_selfie_with_id, kycUpdateLog, logAnyMessageTail]
  · intro uid users ud m un bio ppf hm
    cases m with
    | text s =>
        simp [emailInputAccepted] at hm
        simp [collect_email, hm, kycUpdateLog, logAnyMessageTail]
    | photo f => simp [collect_email, kycUpdateLog, logAnyMessageTail]
    | other => simp [collect_email, kycUpdateLog, logAnyMessageTail]

/-- Witness for C6 amended: a photo in the NAME state is re-prompted and its
only persisted trace is the catch-all history entry. -/
theorem C6_reject_reprompt_logged_witness :
    (nameInputAccepted (Msg.photo "g") = false) ∧
    ((collect_name 2 [] {} (Msg.photo "g")).conv = ConvState.NAME ∧
     (collect_name 2 [] {} (Msg.photo "g")).users = [] ∧
     (collect_name 2 [] {} (Msg.photo "g")).ud = {} ∧
     (collect_name 2 [] {} (Msg.photo "g")).eventLog = [] ∧
     (collect_name 2 [] {} (Msg.photo "g")).adminSends = [] ∧
     (collect_name 2 [] {} (Msg.photo "g")).fullUpserts = [] ∧
     (collect_name 2 [] {} (Msg.photo "g")).replies.length = 1 ∧
     kycUpdateLog (collect_name 2 [] {} (Msg.photo "g")) 2 (Msg.photo "g") =
       [logAnyMessageTail 2 (Msg.photo "g")]) :=
  ⟨by decide, C6_reject_reprompt_logged.1 2 [] {} (Msg.photo "g") (by decide)⟩

/-- C9: a valid full intake with prior status other than `needs_update`
performs exactly one `insert_user` upsert, at the final EMAIL step, writing
the aggregate with status forced to `pending`, and sends the admin exactly
one notification batch: the info text plus both photo references. -/
theorem C9_single_upsert (uid : Nat) (users : List UserRow)
    (n idc idn sf em un bio ppf : String)
    (hn0 : n ≠ "") (hn : is_english_name (pyStrip n) = true)
    (hidn0 : idn ≠ "") (hidn : pyIsdigit (pyStrip idn) = true)
    (hem : em ≠ "") (hidc : idc ≠ "") (hsf : sf ≠ "")
    (hst : ∀ r, get_user users uid = some r → r.status ≠ "needs_update") :
    (fullIntake uid users n idc idn sf em un bio ppf).fullUpserts =
      [insert_user_row (get_user users uid) uid (pyStrip n) (pyStrip idn) idc sf (pyStrip em)
        un bio ppf] ∧
    (insert_user_row (get_user users uid) uid (pyStrip n) (pyStrip idn) idc sf (pyStrip em)
      un bio ppf).status = "pending" ∧
    (fullIntake uid users n idc idn sf em un bio ppf).users =
      upsertUser users (insert_user_row (get_user users uid) uid (pyStrip n) (pyStrip idn) idc sf
        (pyStrip em) un bio ppf) ∧
    (fullIntake uid users n idc idn sf em un bio ppf).conv = ConvState.DONE ∧
    (∃ caption, (fullIntake uid users n idc idn sf em un bio ppf).adminSends =
      [AdminSend.text caption, AdminSend.photo idc caption, AdminSend.photo sf caption]) := by
  cases hgu : get_user users uid with
  | none =>
      refine ⟨?_, rfl, ?_, ?_, ?_⟩ <;>
        simp [fullIntake, collect_name, collect_id_card, collect_id_number,
          collect_selfie_with_id, collect_email, hgu, hn0, hn, hidn0, hidn, hem,
          send_full_info_to_admin, truthyS, hidc, hsf]
  | some ex =>
      have hne : ex.status ≠ "needs_update" := hst ex hgu
      refine ⟨?_, rfl, ?_, ?_, ?_⟩ <;>
        simp [fullIntake, collect_name, collect_id_card, collect_id_number,
          collect_selfie_with_id, collect_email, hgu, hn0, hn, hidn0, hidn, hem, hne,
          send_full_info_to_admin, truthyS, hidc, hsf]

/-- Witness for C9 at the concrete scenario inputs. -/
theorem C9_single_upsert_witness :
    ("John Doe" ≠ "") ∧ (is_english_name (pyStrip "John Doe") = true) ∧
    ("12345" ≠ "") ∧ (pyIsdigit (pyStrip "12345") = true) ∧
    ("a@b.com" ≠ "") ∧ ("card1" ≠ "") ∧ ("selfie1" ≠ "") ∧
    (fullIntake 7 [] "John Doe" "card1" "12345" "selfie1" "a@b.com" "" "" "").fullUpserts =
      [insert_user_row (get_user [] 7) 7 (pyStrip "John Doe") (pyStrip "12345") "card1" "selfie1"
        (pyStrip "a@b.com") "" "" ""] :=
  ⟨by decide, by decide, by decide, by decide, by decide, by decide, by decide,
   (C9_single_upsert 7 [] "John Doe" "card1" "12345" "selfie1" "a@b.com" "" "" ""
     (by decide) (by decide) (by decide) (by decide) (by decide) (by decide) (by decide)
     (fun r hr => by simp [get_user] at hr)).1⟩

end MMLBot
